import Mathlib

/-!
# Verification of the `cacheback` Job state machine (src/cacheback/base.py)

Shallow embedding of `cacheback.base`: the `Job` class (get / refresh /
async_refresh / invalidate / cache_set / key / hash / to_bytestring) is
translated into executable Lean definitions.

Modelling conventions:
* Python values flowing through the cache are `PyVal` (None, int, str,
  tuples).  Call arguments are modelled by the scalar universe `Arg`
  (None, int, str, plus `Arg.bad`, a user object whose `__repr__` raises
  `TypeError` — the way a value can fail to be canonically encoded).
  The claims only need scalar call arguments.
* `time.time()` is modelled by an explicit `now : Int` parameter; a single
  timestamp is used for one call (the code reads the clock several times
  within one call, but only whole-second differences matter to the claims).
* kwargs are an insertion-ordered association list `List (String × Arg)`,
  matching Python's keyword-argument mapping (PEP 468: `**kwargs` preserves
  call order; this codebase targets Python ≤ 3.6, where `async` is still a
  valid identifier).
* The Django cache backend is a reliable key-value map `storeGet`/`storeSet`
  on an association list; `CState.writes` logs every `cache.set` call,
  `CState.dispatched` counts successful `apply_async` submissions and
  `CState.refreshCalls` counts invocations of `Job.refresh`.
* Exceptions are explicit: every operation returns `PyRes α`, a value of
  `Except PyExn α` together with the state as mutated up to the point of
  the raise (Python mutations survive an exception).
* `six.PY2` is `False`: the embedding takes the Python 3 branch of
  `to_bytestring` (`bytes(str(value), 'utf8')`).
* The external dispatch mechanism (`tasks.refresh_cache.apply_async`) either
  succeeds or raises; this is the boolean parameter `dok`.
-/

/-- Python exceptions that the modelled code can raise or catch. -/
inductive PyExn where
  | typeError
  | valueError
  | runtimeError (msg : String)
  | notImplementedError
  | userError (msg : String)

/-- Python values stored in the cache (entries, payloads, status strings). -/
inductive PyVal where
  | none
  | int (n : Int)
  | str (s : String)
  | tuple (xs : List PyVal)

/-- Scalar Python values used as call arguments / kwargs values.
`bad` is a user-defined object whose `__repr__` raises `TypeError`,
i.e. a value that cannot be canonically encoded for hashing. -/
inductive Arg where
  | none
  | int (n : Int)
  | str (s : String)
  | bad (id : Nat)

/-- `True` on the Python `None` value only (`x is None`). -/
def PyVal.isNone : PyVal → Bool
  | .none => true
  | _ => false

/-- The cache backend: an association list from key strings to stored values. -/
abbrev Store := List (String × PyVal)

/-- `cache.get(key)`: the most recent value set under `key`, if any. -/
def storeGet (st : Store) (k : String) : Option PyVal :=
  match st.find? (fun p => p.1 == k) with
  | some p => some p.2
  | Option.none => Option.none

/-- `cache.set(key, v, ttl)`: overwrite the value under `key`. -/
def storeSet (st : Store) (k : String) (v : PyVal) : Store :=
  (k, v) :: st.filter (fun p => p.1 != k)

/-- The observable world state threaded through one or more calls:
the cache contents, the log of every `cache.set` performed, the number of
successful async dispatch submissions, and the number of `refresh` calls. -/
structure CState where
  store : Store
  writes : List (String × PyVal)
  dispatched : Nat
  refreshCalls : Nat

/-- Result of a modelled Python call: the returned value or the exception,
together with the state as mutated up to that point. -/
structure PyRes (α : Type) where
  val : Except PyExn α
  st : CState

/-- Sequencing of modelled Python statements: an uncaught exception
propagates (with the state as already mutated), a normal value flows into
the continuation. -/
def PyRes.bind {α β : Type} (r : PyRes α) (f : α → CState → PyRes β) :
    PyRes β :=
  match r with
  | ⟨.error e, st1⟩ => ⟨.error e, st1⟩
  | ⟨.ok a, st1⟩ => f a st1

/-! ## MD5 (RFC 1321), used by `Job.hash` via `hashlib.md5(...).hexdigest()` -/

/-- 32-bit truncation. -/
def m32 (x : Nat) : Nat := x % 4294967296

/-- 32-bit left rotation. -/
def rotl32 (x n : Nat) : Nat :=
  m32 ((x <<< n) + (x >>> (32 - n)))

/-- The MD5 sine-derived constant table `K` (RFC 1321). -/
def md5K : List Nat :=
  [3614090360, 3905402710, 606105819, 3250441966, 4118548399, 1200080426,
   2821735955, 4249261313, 1770035416, 2336552879, 4294925233, 2304563134,
   1804603682, 4254626195, 2792965006, 1236535329, 4129170786, 3225465664,
   643717713, 3921069994, 3593408605, 38016083, 3634488961, 3889429448,
   568446438, 3275163606, 4107603335, 1163531501, 2850285829, 4243563512,
   1735328473, 2368359562, 4294588738, 2272392833, 1839030562, 4259657740,
   2763975236, 1272893353, 4139469664, 3200236656, 681279174, 3936430074,
   3572445317, 76029189, 3654602809, 3873151461, 530742520, 3299628645,
   4096336452, 1126891415, 2878612391, 4237533241, 1700485571, 2399980690,
   4293915773, 2240044497, 1873313359, 4264355552, 2734768916, 1309151649,
   4149444226, 3174756917, 718787259, 3951481745]

/-- The MD5 per-round left-rotation amounts (RFC 1321). -/
def md5S : List Nat :=
  [7, 12, 17, 22, 7, 12, 17, 22, 7, 12, 17, 22, 7, 12, 17, 22,
   5, 9, 14, 20, 5, 9, 14, 20, 5, 9, 14, 20, 5, 9, 14, 20,
   4, 11, 16, 23, 4, 11, 16, 23, 4, 11, 16, 23, 4, 11, 16, 23,
   6, 10, 15, 21, 6, 10, 15, 21, 6, 10, 15, 21, 6, 10, 15, 21]

/-- MD5 round function and message-word index for round `i` given `b c d`. -/
def md5F (i b c d : Nat) : Nat × Nat :=
  if i < 16 then ((b &&& c) ||| ((4294967295 - b) &&& d), i)
  else if i < 32 then ((d &&& b) ||| ((4294967295 - d) &&& c), (5 * i + 1) % 16)
  else if i < 48 then (b ^^^ c ^^^ d, (3 * i + 5) % 16)
  else (c ^^^ (b ||| (4294967295 - d)), (7 * i) % 16)

/-- One MD5 round: transforms `(a, b, c, d)` for round index `i`
over message words `w`. -/
def md5Round (w : List Nat) (abcd : Nat × Nat × Nat × Nat) (i : Nat) :
    Nat × Nat × Nat × Nat :=
  match abcd with
  | (a, b, c, d) =>
    let fg := md5F i b c d
    let f := m32 (fg.1 + a + (md5K.getD i 0) + (w.getD fg.2 0))
    (d, m32 (b + rotl32 f (md5S.getD i 0)), b, c)

/-- Split a 64-byte block into sixteen little-endian 32-bit words. -/
def md5Words (block : List Nat) : List Nat :=
  (List.range 16).map fun j =>
    block.getD (4 * j) 0 + 256 * block.getD (4 * j + 1) 0 +
      65536 * block.getD (4 * j + 2) 0 + 16777216 * block.getD (4 * j + 3) 0

/-- Process one 64-byte block, updating the running state. -/
def md5Block (state : Nat × Nat × Nat × Nat) (block : List Nat) :
    Nat × Nat × Nat × Nat :=
  match state with
  | (a0, b0, c0, d0) =>
    let w := md5Words block
    match (List.range 64).foldl (md5Round w) (a0, b0, c0, d0) with
    | (a, b, c, d) => (m32 (a0 + a), m32 (b0 + b), m32 (c0 + c), m32 (d0 + d))

/-- Split a list into chunks of 64 bytes (`fuel` bounds the number of
chunks; it is always instantiated at `length / 64 + 1`, enough for the
whole list). -/
def chunksAux : Nat → List Nat → List (List Nat)
  | 0, _ => []
  | _, [] => []
  | fuel + 1, l => l.take 64 :: chunksAux fuel (l.drop 64)

/-- Split a list into chunks of 64 bytes. -/
def chunks64 (l : List Nat) : List (List Nat) :=
  chunksAux (l.length / 64 + 1) l

/-- MD5 padding: append `0x80`, zeros to 56 mod 64, then the bit length
as a 64-bit little-endian integer. -/
def md5Pad (msg : List Nat) : List Nat :=
  let len := msg.length
  let padLen := (119 - len % 64) % 64 + 1
  let bits := 8 * len
  msg ++ (128 :: List.replicate (padLen - 1) 0) ++
    (List.range 8).map fun j => (bits >>> (8 * j)) % 256

/-- Two lowercase hex digits of a byte. -/
def hexByte (b : Nat) : String :=
  let digit := fun (n : Nat) =>
    String.singleton (if n < 10 then Char.ofNat (48 + n) else Char.ofNat (87 + n))
  digit (b / 16 % 16) ++ digit (b % 16)

/-- Little-endian hex rendering of a 32-bit word. -/
def hexWord (x : Nat) : String :=
  hexByte (x % 256) ++ hexByte (x / 256 % 256) ++
    hexByte (x / 65536 % 256) ++ hexByte (x / 16777216 % 256)

/-- `hashlib.md5(bytes).hexdigest()`: the MD5 digest of a byte list as a
32-character lowercase hex string. -/
def md5hex (msg : List Nat) : String :=
  match (chunks64 (md5Pad msg)).foldl md5Block
      (1732584193, 4023233417, 2562383102, 271733878) with
  | (a, b, c, d) => hexWord a ++ hexWord b ++ hexWord c ++ hexWord d

/-! ## Canonical encoding: `str(...)` / `to_bytestring` / `Job.hash` -/

/-- UTF-8 encoding of one Unicode code point. -/
def encodeCodePoint (n : Nat) : List Nat :=
  if n < 128 then [n]
  else if n < 2048 then [192 + n / 64, 128 + n % 64]
  else if n < 65536 then
    [224 + n / 4096, 128 + (n / 64) % 64, 128 + n % 64]
  else
    [240 + n / 262144, 128 + (n / 4096) % 64, 128 + (n / 64) % 64, 128 + n % 64]

/-- `bytes(s, 'utf8')`: UTF-8 bytes of a string. -/
def utf8Bytes (s : String) : List Nat :=
  s.data.foldr (fun c acc => encodeCodePoint c.toNat ++ acc) []

/-- The single-quote character, with which Python `repr` delimits strings. -/
def squote : String := String.singleton (Char.ofNat 39)

/-- Python `repr` of one scalar argument value, as produced inside
`str(tuple)`.  Strings are modelled without quote/escape characters, so
`repr` wraps them in single quotes; `repr` of an `Arg.bad` object raises
`TypeError` (the object has a broken `__repr__`, so the value is not
canonically encodable). -/
def pyReprArg : Arg → Except PyExn String
  | .none => .ok "None"
  | .int n => .ok (toString n)
  | .str s => .ok (squote ++ s ++ squote)
  | .bad _ => .error .typeError

/-- `repr` of each element of a list, propagating the first exception. -/
def pyReprList : List Arg → Except PyExn (List String)
  | [] => .ok []
  | a :: rest =>
    match pyReprArg a with
    | .error e => .error e
    | .ok r =>
      match pyReprList rest with
      | .error e => .error e
      | .ok rs => .ok (r :: rs)

/-- Python `str(t)` for a tuple `t` of scalar values: `"()"`, `"(x,)"` for
singletons, `"(x, y, ...)"` otherwise, with elements rendered by `repr`. -/
def pyStrTuple (xs : List Arg) : Except PyExn String :=
  match pyReprList xs with
  | .error e => .error e
  | .ok [] => .ok "()"
  | .ok [r] => .ok ("(" ++ r ++ ",)")
  | .ok rs => .ok ("(" ++ String.intercalate ", " rs ++ ")")

/-- `to_bytestring(value)` from src/cacheback/base.py for the tuples passed
in by `Job.hash`: a tuple is neither a text nor a byte string, so the
Python 3 branch `bytes(str(value), 'utf8')` is taken. -/
def to_bytestring (xs : List Arg) : Except PyExn (List Nat) :=
  match pyStrTuple xs with
  | .error e => .error e
  | .ok s => .ok (utf8Bytes s)

/-! ## The `Job` class -/

/-- The configuration of a `Job` subtype: the class attributes of
`cacheback.base.Job` together with the two members every concrete job
supplies, `fetch` (abstract in the base class) and `empty` (defaults to
`None`).  `class_path` is `self.class_path`, the module-qualified name. -/
structure Job where
  lifetime : Int
  refresh_timeout : Int
  cache_ttl : Int
  fetch_on_miss : Bool
  fetch_on_stale_threshold : Option Int
  class_path : String
  fetch : List Arg → List (String × Arg) → Except PyExn PyVal
  empty : PyVal

/-- `Job.hash(value)`: `hashlib.md5(to_bytestring(value)).hexdigest()`. -/
def Job.hash (xs : List Arg) : Except PyExn String :=
  match to_bytestring xs with
  | .error e => .error e
  | .ok bs => .ok (md5hex bs)

/-- The `RuntimeError` message raised by `Job.key` when hashing raises
`TypeError` (the source concatenates three string literals without
separating spaces, hence "unhashableargs" and "ownkey"). -/
def unhashableMsg : String :=
  "Unable to generate cache key due to unhashable" ++
    "args or kwargs - you need to implement your own" ++
    "key generation method to avoid this problem"

/-- `Job.key(*args, **kwargs)`: the class path alone when there are no
arguments; otherwise the class path joined with MD5 hashes of the args
tuple and, when kwargs are present, of the kwargs key tuple and value
tuple.  A `TypeError` raised while hashing is caught and re-raised as a
`RuntimeError` telling the caller to implement their own key method. -/
def Job.key (j : Job) (args : List Arg) (kwargs : List (String × Arg)) :
    Except PyExn String :=
  if args.isEmpty && kwargs.isEmpty then .ok j.class_path
  else
    let body :=
      if !args.isEmpty && kwargs.isEmpty then
        match Job.hash args with
        | .error e => Except.error e
        | .ok h => .ok (j.class_path ++ ":" ++ h)
      else
        match Job.hash args with
        | .error e => Except.error e
        | .ok h1 =>
          match Job.hash (kwargs.map fun p => Arg.str p.1) with
          | .error e => Except.error e
          | .ok h2 =>
            match Job.hash (kwargs.map fun p => p.2) with
            | .error e => Except.error e
            | .ok h3 =>
              .ok (j.class_path ++ ":" ++ h1 ++ ":" ++ h2 ++ ":" ++ h3)
    match body with
    | .error PyExn.typeError => .error (.runtimeError unhashableMsg)
    | r => r

/-- `Job.expiry(*args, **kwargs)`: `time.time() + self.lifetime`. -/
def Job.expiry (j : Job) (now : Int) : Int := now + j.lifetime

/-- `Job.timeout(*args, **kwargs)`: `time.time() + self.refresh_timeout`. -/
def Job.timeout (j : Job) (now : Int) : Int := now + j.refresh_timeout

/-- `Job.should_missing_item_be_fetched_synchronously`: `self.fetch_on_miss`. -/
def Job.should_missing_item_be_fetched_synchronously (j : Job) : Bool :=
  j.fetch_on_miss

/-- `Job.should_stale_item_be_fetched_synchronously(delta)`: `False` when no
stale threshold is configured, otherwise
`delta > self.fetch_on_stale_threshold - self.lifetime`. -/
def Job.should_stale_item_be_fetched_synchronously (j : Job) (delta : Int) :
    Bool :=
  match j.fetch_on_stale_threshold with
  | Option.none => false
  | some t => decide (delta > t - j.lifetime)

/-- `Job.got_miss(fetched, async, ...)`: identity in the base class. -/
def Job.got_miss (_j : Job) (fetched : PyVal) (_a : Bool) : PyVal := fetched

/-- `Job.got_hit(fetched, status, ...)`: identity in the base class. -/
def Job.got_hit (_j : Job) (fetched : PyVal) (_status : PyVal) : PyVal :=
  fetched

/-- `Job.got_stale(fetched, async, ...)`: identity in the base class. -/
def Job.got_stale (_j : Job) (fetched : PyVal) (_a : Bool) : PyVal := fetched

/-- `Job.cache_set(key, expiry, status, data)`: stores the tuple
`(expiry, status, data)` under `key` with the cache TTL, then (with the
default `CACHEBACK_VERIFY_CACHE_WRITE = True`) reads the key back,
unpacking three components, and raises `RuntimeError` if a non-`None`
`data` did not persist.  Note the parameter order: callers on the read
path pass `(key, timeout, data, 'QUEUED')`, so for them `status` is bound
to the payload and `data` to the status string. -/
def Job.cache_set (_j : Job) (key : String) (expiry : Int)
    (status data : PyVal) (st : CState) : PyRes Unit :=
  let entry := PyVal.tuple [.int expiry, status, data]
  let st1 : CState :=
    { st with store := storeSet st.store key entry,
              writes := st.writes ++ [(key, entry)] }
  match storeGet st1.store key with
  | some (PyVal.tuple [_, _, cached_data]) =>
    if !data.isNone && cached_data.isNone then
      ⟨.error (.runtimeError "Unable to save data to cache"), st1⟩
    else ⟨.ok (), st1⟩
  | some _ => ⟨.error .valueError, st1⟩
  | Option.none =>
    -- `cache.get(key, (None, None, None))`: absent key unpacks the default,
    -- so `cached_data` is `None`.
    if !data.isNone then
      ⟨.error (.runtimeError "Unable to save data to cache"), st1⟩
    else ⟨.ok (), st1⟩

/-- `Job.refresh(*args, **kwargs)`: call `fetch` synchronously, then
`cache_set(self.key(...), self.expiry(...), 'FRESH', result)`, and return
the result. -/
def Job.refresh (j : Job) (now : Int) (args : List Arg)
    (kwargs : List (String × Arg)) (st : CState) : PyRes PyVal :=
  let st0 : CState := { st with refreshCalls := st.refreshCalls + 1 }
  match j.fetch args kwargs with
  | .error e => ⟨.error e, st0⟩
  | .ok result =>
    match Job.key j args kwargs with
    | .error e => ⟨.error e, st0⟩
    | .ok k =>
      (Job.cache_set j k (Job.expiry j now) (.str "FRESH") result st0).bind
        fun _ st1 => ⟨.ok result, st1⟩

/-- `Job.async_refresh(*args, **kwargs)`: submit the refresh task via
`apply_async` (`dok` says whether the broker accepts it); when submission
raises, fall back to one synchronous `refresh`, and swallow any exception
that fallback raises.  `async_refresh` itself never raises. -/
def Job.async_refresh (j : Job) (dok : Bool) (now : Int) (args : List Arg)
    (kwargs : List (String × Arg)) (st : CState) : PyRes Unit :=
  if dok then
    ⟨.ok (), { st with dispatched := st.dispatched + 1 }⟩
  else
    match Job.refresh j now args kwargs st with
    | ⟨.ok _, st1⟩ => ⟨.ok (), st1⟩
    | ⟨.error _, st1⟩ => ⟨.ok (), st1⟩

/-- `Job.get(*args, **kwargs)`: the read-path state machine.  On a miss,
either refresh synchronously (`fetch_on_miss`) or store a QUEUED
placeholder with the refresh-timeout expiry and dispatch; on a hit,
unpack the entry as `(expiry, data, status)` and branch on
`delta = now - expiry`: stale (`delta > 0`) re-writes the entry as
`(timeout, data, 'QUEUED')` and dispatches unless the stale threshold
forces a synchronous refresh; otherwise return the data via `got_hit`. -/
def Job.get (j : Job) (dok : Bool) (now : Int) (args : List Arg)
    (kwargs : List (String × Arg)) (st : CState) : PyRes PyVal :=
  match Job.key j args kwargs with
  | .error e => ⟨.error e, st⟩
  | .ok key =>
    match storeGet st.store key with
    | Option.none =>
      if Job.should_missing_item_be_fetched_synchronously j then
        (Job.refresh j now args kwargs st).bind fun fetched st1 =>
          ⟨.ok (Job.got_miss j fetched false), st1⟩
      else
        (Job.cache_set j key (Job.timeout j now) j.empty (.str "QUEUED")
            st).bind fun _ st1 =>
          (Job.async_refresh j dok now args kwargs st1).bind fun _ st2 =>
            ⟨.ok (Job.got_miss j j.empty true), st2⟩
    | some item =>
      match item with
      | PyVal.tuple [PyVal.int expiry, data, status] =>
        let delta := now - expiry
        if delta > 0 then
          if Job.should_stale_item_be_fetched_synchronously j delta then
            (Job.refresh j now args kwargs st).bind fun fetched st1 =>
              ⟨.ok (Job.got_stale j fetched false), st1⟩
          else
            (Job.cache_set j key (Job.timeout j now) data (.str "QUEUED")
                st).bind fun _ st1 =>
              (Job.async_refresh j dok now args kwargs st1).bind fun _ st2 =>
                ⟨.ok (Job.got_stale j data true), st2⟩
        else
          ⟨.ok (Job.got_hit j data status), st⟩
      | PyVal.tuple [_, _, _] =>
        -- `time.time() - expiry` with a non-numeric expiry raises TypeError.
        ⟨.error .typeError, st⟩
      | PyVal.tuple _ =>
        -- `expiry, data, status = item` on a tuple of another length
        -- raises ValueError.
        ⟨.error .valueError, st⟩
      | _ =>
        -- Unpacking a non-iterable raises TypeError.  (Entries written by
        -- this code are always tuples.)
        ⟨.error .typeError, st⟩

/-- `Job.invalidate(*args, **kwargs)`: if an entry exists, unpack it as
`expiry, data = item` — a two-element unpacking, which raises
`ValueError` on the three-element tuples this code stores — then
`cache_set(key, timeout, data, 'QUEUED')` and dispatch an async refresh. -/
def Job.invalidate (j : Job) (dok : Bool) (now : Int) (args : List Arg)
    (kwargs : List (String × Arg)) (st : CState) : PyRes Unit :=
  match Job.key j args kwargs with
  | .error e => ⟨.error e, st⟩
  | .ok key =>
    match storeGet st.store key with
    | Option.none => ⟨.ok (), st⟩
    | some item =>
      match item with
      | PyVal.tuple [_expiry, data] =>
        (Job.cache_set j key (Job.timeout j now) data (.str "QUEUED")
            st).bind fun _ st1 =>
          (Job.async_refresh j dok now args kwargs st1).bind fun _ st2 =>
            ⟨.ok (), st2⟩
      | PyVal.tuple _ => ⟨.error .valueError, st⟩
      | _ => ⟨.error .typeError, st⟩

/-! ## Predicates used by the claims -/

/-- A value is canonically encodable exactly when it is not a broken
user object (its `repr` succeeds). -/
def Arg.encodable : Arg → Bool
  | .bad _ => false
  | _ => true

/-- All positional arguments and all keyword-argument values of a call are
canonically encodable.  (Keyword-argument names are Python identifiers,
hence always encodable strings.) -/
def encodableInputs (args : List Arg) (kwargs : List (String × Arg)) : Bool :=
  args.all Arg.encodable && kwargs.all fun p => p.2.encodable

/-- A stored value is a complete three-field cache entry: a tuple with
exactly three components.  In particular `None` and shorter or longer
tuples are not complete entries. -/
def completeTriple : PyVal → Bool
  | .tuple [_, _, _] => true
  | _ => false

/-- Every value logged as written to the backing store is a complete
three-field entry. -/
def WritesOk (l : List (String × PyVal)) : Bool :=
  l.all fun kv => completeTriple kv.2

/-! ## Concrete instances used by the scenario claims -/

/-- A concrete job with the default configuration (`lifetime = 600`,
`refresh_timeout = 60`, `fetch_on_miss = True`, no stale threshold) whose
`fetch` returns the string `"V"`. -/
def vJob : Job :=
  ⟨600, 60, 2592000, true, Option.none, "tests.VanillaJob",
   fun _ _ => .ok (PyVal.str "V"), PyVal.none⟩

/-- The same job with `fetch_on_miss = False`. -/
def vJobNoFom : Job :=
  ⟨600, 60, 2592000, false, Option.none, "tests.VanillaJob",
   fun _ _ => .ok (PyVal.str "V"), PyVal.none⟩

/-- The empty initial world: empty cache, no writes, no dispatches. -/
def emptySt : CState := ⟨[], [], 0, 0⟩

/-- A world whose cache holds, under the no-argument key of `vJob`, an
entry with expiry 600, payload `"V"` and status `"FRESH"` (the tuple
layout `(expiry, data, status)` that `Job.get` unpacks). -/
def freshSt : CState :=
  ⟨[("tests.VanillaJob", .tuple [.int 600, .str "V", .str "FRESH"])], [], 0, 0⟩

/-- kwargs `a=1, b=2` in that order. -/
def kwAB : List (String × Arg) := [("a", .int 1), ("b", .int 2)]

/-- The same keyword/value pairs in the opposite order: `b=2, a=1`. -/
def kwBA : List (String × Arg) := [("b", .int 2), ("a", .int 1)]

/-- The cache key produced for `kwAB`: class path, digest of the empty args
tuple, digest of the key tuple `(a, b)`, digest of the value tuple
`(1, 2)`. -/
def keyABstr : String :=
  "tests.VanillaJob:bcd8b0c2eb1fce714eab6cef0d771acc:" ++
    "aca14e654bc28ce1c1e8131004244d64:85985a7bd912508f89c96f0ff61e15a6"

/-- The cache key produced for `kwBA`: same class path and args digest,
but digests of the key tuple `(b, a)` and value tuple `(2, 1)`. -/
def keyBAstr : String :=
  "tests.VanillaJob:bcd8b0c2eb1fce714eab6cef0d771acc:" ++
    "82ca240c4a3f5579a5c33404af58e41b:54f983c58cd07ef08e5479180acbf64f"

/-- Scenario C1, step 1: `get("a")` on `vJob` at `t = 0`, empty cache,
working dispatch. -/
def c1Get0 : PyRes PyVal := Job.get vJob true 0 [Arg.str "a"] [] emptySt

/-- Scenario C1, step 2: `get("a")` again at `t = 700` on the resulting
world. -/
def c1Get700 : PyRes PyVal := Job.get vJob true 700 [Arg.str "a"] [] c1Get0.st

/-- The cache key of `get("a")` on `vJob`: class path plus the MD5 digest
of the canonical encoding of the one-element args tuple. -/
def c1Key : String := "tests.VanillaJob:cfea63879ac12dfbea87b362984813f1"

/-- Scenario C5, step 1: no-argument `get()` on `vJob` at `t = 0`, empty
cache. -/
def c5Get0 : PyRes PyVal := Job.get vJob true 0 [] [] emptySt

/-- Scenario C5, step 2: no-argument `get()` again at `t = 1` (entry still
fresh) on the resulting world. -/
def c5Get1 : PyRes PyVal := Job.get vJob true 1 [] [] c5Get0.st

/-! ## Basic lemmas about the store and `cache_set` -/

set_option maxRecDepth 40000

theorem storeGet_storeSet_self (st : Store) (k : String) (v : PyVal) :
    storeGet (storeSet st k v) k = some v := by
  unfold storeGet storeSet
  rw [List.find?_cons_of_pos]
  exact beq_self_eq_true k

/-- `cache_set` always succeeds against the reliable store model: the
write-verification read-back returns the value just written, whose third
component is exactly the `data` parameter, so the failure condition
`data is not None and cached_data is None` is unsatisfiable. -/
theorem cache_set_ok (j : Job) (k : String) (e : Int) (stt d : PyVal)
    (st : CState) :
    Job.cache_set j k e stt d st =
      ⟨.ok (),
       { st with store := storeSet st.store k (.tuple [.int e, stt, d]),
                 writes := st.writes ++ [(k, PyVal.tuple [.int e, stt, d])] }⟩ := by
  simp only [Job.cache_set, storeGet_storeSet_self]
  cases hd : d.isNone <;> simp [hd]

/-- `refresh` increments the refresh-call counter exactly once, in every
outcome (fetch failure, key failure, or success). -/
theorem refresh_refreshCalls (j : Job) (now : Int) (args : List Arg)
    (kwargs : List (String × Arg)) (st : CState) :
    (Job.refresh j now args kwargs st).st.refreshCalls =
      st.refreshCalls + 1 := by
  cases hf : j.fetch args kwargs with
  | error e => simp only [Job.refresh, hf]
  | ok result =>
    cases hk : Job.key j args kwargs with
    | error e => simp only [Job.refresh, hf, hk]
    | ok k => simp only [Job.refresh, hf, hk, cache_set_ok, PyRes.bind]

/-- On a successful fetch and key, `refresh` returns the fetched value and
writes `(now + lifetime, 'FRESH', result)` under the key. -/
theorem refresh_ok (j : Job) (now : Int) (args : List Arg)
    (kwargs : List (String × Arg)) (st : CState) (result : PyVal) (k : String)
    (hf : j.fetch args kwargs = .ok result)
    (hk : Job.key j args kwargs = .ok k) :
    Job.refresh j now args kwargs st =
      ⟨.ok result,
       { st with
           store := storeSet st.store k
             (.tuple [.int (now + j.lifetime), .str "FRESH", result]),
           writes := st.writes ++
             [(k, PyVal.tuple [.int (now + j.lifetime), .str "FRESH", result])],
           refreshCalls := st.refreshCalls + 1 }⟩ := by
  simp only [Job.refresh, hf, hk, cache_set_ok, Job.expiry, PyRes.bind]

/-- `async_refresh` never raises: a dispatch failure falls back to one
synchronous refresh, and a failure of that fallback is swallowed. -/
theorem async_refresh_never_raises (j : Job) (dok : Bool) (now : Int)
    (args : List Arg) (kwargs : List (String × Arg)) (st : CState) :
    (Job.async_refresh j dok now args kwargs st).val = .ok () := by
  unfold Job.async_refresh
  cases dok with
  | true => rfl
  | false =>
    cases h : Job.refresh j now args kwargs st with
    | mk v st1 => cases v <;> simp


/-! ## Write-invariant lemmas (complete-triple preservation) -/

theorem writesOk_append_triple (l : List (String × PyVal)) (k : String)
    (e : Int) (a b : PyVal) (h : WritesOk l = true) :
    WritesOk (l ++ [(k, PyVal.tuple [.int e, a, b])]) = true := by
  simp only [WritesOk, List.all_append, Bool.and_eq_true]
  exact ⟨h, rfl⟩

theorem cache_set_writesOk (j : Job) (k : String) (e : Int) (stt d : PyVal)
    (st : CState) (h : WritesOk st.writes = true) :
    WritesOk ((Job.cache_set j k e stt d st).st.writes) = true := by
  rw [cache_set_ok]
  exact writesOk_append_triple st.writes k e stt d h

/-- Exception-propagating sequencing preserves the complete-triple write
invariant when both the first computation and the continuation do. -/
theorem bind_writesOk {α β : Type} (r : PyRes α) (f : α → CState → PyRes β)
    (hr : WritesOk r.st.writes = true)
    (hf : ∀ a st1, WritesOk st1.writes = true →
        WritesOk ((f a st1).st.writes) = true) :
    WritesOk ((r.bind f).st.writes) = true := by
  rcases r with ⟨v, st1⟩
  cases v with
  | error e => exact hr
  | ok a => exact hf a st1 hr

theorem refresh_writesOk (j : Job) (now : Int) (args : List Arg)
    (kwargs : List (String × Arg)) (st : CState)
    (h : WritesOk st.writes = true) :
    WritesOk ((Job.refresh j now args kwargs st).st.writes) = true := by
  cases hf : j.fetch args kwargs with
  | error e => simp only [Job.refresh, hf]; exact h
  | ok result =>
    cases hk : Job.key j args kwargs with
    | error e => simp only [Job.refresh, hf, hk]; exact h
    | ok k =>
      rw [refresh_ok j now args kwargs st result k hf hk]
      exact writesOk_append_triple st.writes k (now + j.lifetime)
        (.str "FRESH") result h

theorem async_refresh_writesOk (j : Job) (dok : Bool) (now : Int)
    (args : List Arg) (kwargs : List (String × Arg)) (st : CState)
    (h : WritesOk st.writes = true) :
    WritesOk ((Job.async_refresh j dok now args kwargs st).st.writes) = true := by
  cases dok with
  | true => simp only [Job.async_refresh, if_true]; exact h
  | false =>
    simp only [Job.async_refresh, Bool.false_eq_true, if_false]
    have h2 := refresh_writesOk j now args kwargs st h
    cases hr : Job.refresh j now args kwargs st with
    | mk v st1 =>
      rw [hr] at h2
      cases v <;> exact h2

theorem get_writesOk (j : Job) (dok : Bool) (now : Int) (args : List Arg)
    (kwargs : List (String × Arg)) (st : CState)
    (h : WritesOk st.writes = true) :
    WritesOk ((Job.get j dok now args kwargs st).st.writes) = true := by
  cases hkey : Job.key j args kwargs with
  | error e => simp only [Job.get, hkey]; exact h
  | ok key =>
    simp only [Job.get, hkey]
    cases hit : storeGet st.store key with
    | none =>
      cases hfom : Job.should_missing_item_be_fetched_synchronously j with
      | true =>
        simp only [hfom, if_true]
        exact bind_writesOk _ _ (refresh_writesOk j now args kwargs st h)
          fun a st1 h1 => h1
      | false =>
        simp only [hfom, Bool.false_eq_true, if_false]
        exact bind_writesOk _ _
          (cache_set_writesOk j key (Job.timeout j now) j.empty
            (.str "QUEUED") st h)
          fun a st1 h1 =>
            bind_writesOk _ _
              (async_refresh_writesOk j dok now args kwargs st1 h1)
              fun b st2 h2 => h2
    | some item =>
      cases item with
      | none => exact h
      | int n => exact h
      | str s => exact h
      | tuple xs =>
        cases xs with
        | nil => exact h
        | cons x t1 =>
          cases t1 with
          | nil => cases x <;> exact h
          | cons d t2 =>
            cases t2 with
            | nil => cases x <;> exact h
            | cons s t3 =>
              cases t3 with
              | cons w t4 => cases x <;> exact h
              | nil =>
                cases x with
                | none => exact h
                | str s2 => exact h
                | tuple tt => exact h
                | int e =>
                  by_cases hd : now - e > 0
                  · simp only [hd, if_true]
                    cases hsync :
                        Job.should_stale_item_be_fetched_synchronously j
                          (now - e) with
                    | true =>
                      simp only [hsync, if_true]
                      exact bind_writesOk _ _
                        (refresh_writesOk j now args kwargs st h)
                        fun a st1 h1 => h1
                    | false =>
                      simp only [hsync, Bool.false_eq_true, if_false]
                      exact bind_writesOk _ _
                        (cache_set_writesOk j key (Job.timeout j now) d
                          (.str "QUEUED") st h)
                        fun a st1 h1 =>
                          bind_writesOk _ _
                            (async_refresh_writesOk j dok now args kwargs
                              st1 h1)
                            fun b st2 h2 => h2
                  · simp only [hd, if_false]
                    exact h

theorem invalidate_writesOk (j : Job) (dok : Bool) (now : Int)
    (args : List Arg) (kwargs : List (String × Arg)) (st : CState)
    (h : WritesOk st.writes = true) :
    WritesOk ((Job.invalidate j dok now args kwargs st).st.writes) = true := by
  cases hkey : Job.key j args kwargs with
  | error e => simp only [Job.invalidate, hkey]; exact h
  | ok key =>
    simp only [Job.invalidate, hkey]
    cases hit : storeGet st.store key with
    | none => exact h
    | some item =>
      match item with
      | PyVal.none => exact h
      | PyVal.int n => exact h
      | PyVal.str s => exact h
      | PyVal.tuple [] => exact h
      | PyVal.tuple [x] => exact h
      | PyVal.tuple (x :: y :: z :: rest) => exact h
      | PyVal.tuple [x, y] =>
        exact bind_writesOk _ _
          (cache_set_writesOk j key (Job.timeout j now) y
            (.str "QUEUED") st h)
          fun a st1 h1 =>
            bind_writesOk _ _
              (async_refresh_writesOk j dok now args kwargs st1 h1)
              fun b st2 h2 => h2

/-! ## Encoding lemmas (for the key-derivation claims) -/

theorem pyReprArg_ok (a : Arg) (h : a.encodable = true) :
    ∃ s, pyReprArg a = .ok s := by
  cases a with
  | none => exact ⟨"None", rfl⟩
  | int n => exact ⟨toString n, rfl⟩
  | str s => exact ⟨squote ++ s ++ squote, rfl⟩
  | bad i => simp [Arg.encodable] at h

theorem pyReprArg_err (a : Arg) (h : a.encodable = false) :
    pyReprArg a = .error .typeError := by
  cases a <;> simp_all [Arg.encodable, pyReprArg]

theorem pyReprList_ok (xs : List Arg) (h : xs.all Arg.encodable = true) :
    ∃ rs, pyReprList xs = .ok rs := by
  induction xs with
  | nil => exact ⟨[], rfl⟩
  | cons a t ih =>
    rw [List.all_cons, Bool.and_eq_true] at h
    obtain ⟨s, hs⟩ := pyReprArg_ok a h.1
    obtain ⟨rs, hrs⟩ := ih h.2
    exact ⟨s :: rs, by simp [pyReprList, hs, hrs]⟩

theorem pyReprList_err (xs : List Arg) (h : xs.all Arg.encodable = false) :
    pyReprList xs = .error .typeError := by
  induction xs with
  | nil => simp [List.all_nil] at h
  | cons a t ih =>
    cases ha : a.encodable with
    | false => simp [pyReprList, pyReprArg_err a ha]
    | true =>
      rw [List.all_cons, ha, Bool.true_and] at h
      obtain ⟨s, hs⟩ := pyReprArg_ok a ha
      simp [pyReprList, hs, ih h]

theorem hash_ok (xs : List Arg) (h : xs.all Arg.encodable = true) :
    ∃ s, Job.hash xs = .ok s := by
  obtain ⟨rs, hrs⟩ := pyReprList_ok xs h
  cases rs with
  | nil =>
    exact ⟨md5hex (utf8Bytes "()"),
      by simp [Job.hash, to_bytestring, pyStrTuple, hrs]⟩
  | cons r rt =>
    cases rt with
    | nil =>
      exact ⟨md5hex (utf8Bytes ("(" ++ r ++ ",)")),
        by simp [Job.hash, to_bytestring, pyStrTuple, hrs]⟩
    | cons r2 rt2 =>
      exact ⟨md5hex (utf8Bytes
          ("(" ++ String.intercalate ", " (r :: r2 :: rt2) ++ ")")),
        by simp [Job.hash, to_bytestring, pyStrTuple, hrs]⟩

theorem hash_err (xs : List Arg) (h : xs.all Arg.encodable = false) :
    Job.hash xs = .error .typeError := by
  simp [Job.hash, to_bytestring, pyStrTuple, pyReprList_err xs h]

theorem keys_all_encodable (kwargs : List (String × Arg)) :
    ((kwargs.map fun p => Arg.str p.1).all Arg.encodable) = true := by
  induction kwargs with
  | nil => rfl
  | cons p t ih =>
    rw [List.map_cons, List.all_cons]
    simpa [Arg.encodable] using ih

theorem values_all_encodable (kwargs : List (String × Arg))
    (h : (kwargs.all fun p => p.2.encodable) = true) :
    ((kwargs.map fun p => p.2).all Arg.encodable) = true := by
  induction kwargs with
  | nil => rfl
  | cons p t ih =>
    rw [List.all_cons, Bool.and_eq_true] at h
    rw [List.map_cons, List.all_cons, h.1, Bool.true_and]
    exact ih h.2

theorem values_all_encodable_false (kwargs : List (String × Arg))
    (h : (kwargs.all fun p => p.2.encodable) = false) :
    ((kwargs.map fun p => p.2).all Arg.encodable) = false := by
  induction kwargs with
  | nil => simp [List.all_nil] at h
  | cons p t ih =>
    rw [List.all_cons] at h
    rw [List.map_cons, List.all_cons]
    cases hp : p.2.encodable with
    | false => rw [Bool.false_and]
    | true =>
      rw [hp, Bool.true_and] at h
      rw [Bool.true_and]
      exact ih h

/-! ## The claims -/

/-- C1: the spec scenario (lifetime 600, refreshTimeout 60, fetchOnMiss
true) fails on the code.  At t = 0 `get("a")` does return V and the store
holds the tuple `(600, FRESH, V)`; but because `refresh` passes its
arguments to `cache_set` in the order `(key, expiry, 'FRESH', result)`
while `get` unpacks entries as `(expiry, data, status)`, the t = 700 call
returns the string `FRESH` instead of V, and rewrites the entry to
`(760, FRESH, QUEUED)` rather than `(760, QUEUED, V)`.  One async dispatch
does fire.  The final conjunct records that the returned value differs
from V. -/
theorem c1_scenario_stale_read_returns_status_string :
    c1Get0.val = .ok (.str "V") ∧
    storeGet c1Get0.st.store c1Key =
      some (.tuple [.int 600, .str "FRESH", .str "V"]) ∧
    c1Get700.val = .ok (.str "FRESH") ∧
    storeGet c1Get700.st.store c1Key =
      some (.tuple [.int 760, .str "FRESH", .str "QUEUED"]) ∧
    c1Get700.st.dispatched = 1 ∧
    ("FRESH" == "V") = false :=
  ⟨rfl, rfl, rfl, rfl, rfl, rfl⟩

/-- C2: the claim fails on the code.  `invalidate` unpacks an existing
entry as `expiry, data = item`, a two-element unpacking, but every entry
this code writes is a three-element tuple, so `invalidate` raises
`ValueError` and performs no write and no dispatch (the state is returned
unchanged). -/
theorem c2_invalidate_raises_valueerror :
    Job.invalidate vJob true 700 [] [] freshSt =
      ⟨.error .valueError, freshSt⟩ :=
  rfl

/-- C3 (amended: the spec inequality is inverted; the hit path is taken
when `expiry >= now`, not `expiry <= now`): for every stored three-field
entry whose expiry is at least the current time, `get` returns the
payload through the got-hit hook with the stored status and leaves the
state untouched — no write, no dispatch, no refresh. -/
theorem c3_fresh_hit_no_dispatch (j : Job) (dok : Bool) (now : Int)
    (args : List Arg) (kwargs : List (String × Arg)) (st : CState)
    (key : String) (e : Int) (d s : PyVal)
    (hkey : Job.key j args kwargs = .ok key)
    (hentry : storeGet st.store key = some (.tuple [.int e, d, s]))
    (hfresh : now ≤ e) :
    Job.get j dok now args kwargs st = ⟨.ok (Job.got_hit j d s), st⟩ := by
  simp only [Job.get, hkey, hentry]
  rw [if_neg (by omega)]

/-- C3 witness: a concrete fresh hit (entry expiry 600, read at t = 5)
returning the stored payload with the world unchanged. -/
theorem c3_witness :
    storeGet freshSt.store "tests.VanillaJob" =
      some (.tuple [.int 600, .str "V", .str "FRESH"]) ∧
    (5 : Int) ≤ 600 ∧
    Job.get vJob true 5 [] [] freshSt = ⟨.ok (.str "V"), freshSt⟩ :=
  ⟨rfl, by decide,
   c3_fresh_hit_no_dispatch vJob true 5 [] [] freshSt "tests.VanillaJob"
     600 (.str "V") (.str "FRESH") rfl rfl (by decide)⟩

/-- C3 counterexample to the claim as stated: an entry with
`expiry = 600 <= now = 700` does not take the hit path — `get` dispatches
an async refresh. -/
theorem c3_counterexample :
    (600 : Int) ≤ 700 ∧
    (Job.get vJob true 700 [] [] freshSt).st.dispatched = 1 :=
  ⟨by decide, rfl⟩

/-- C4 (amended: the spec inequality is inverted; the stale path is taken
when `expiry < now`, i.e. when the expiry has passed): for every stored
three-field entry whose expiry is strictly below the current time, with no
stale threshold configured and a working dispatch, `get` returns the
stored payload, rewrites the entry in place to
`(now + refresh_timeout, same payload, QUEUED)`, and dispatches exactly
one async refresh. -/
theorem c4_stale_entry_async_refresh (j : Job) (now : Int) (args : List Arg)
    (kwargs : List (String × Arg)) (st : CState) (key : String) (e : Int)
    (d s : PyVal)
    (hkey : Job.key j args kwargs = .ok key)
    (hentry : storeGet st.store key = some (.tuple [.int e, d, s]))
    (hstale : e < now)
    (hth : j.fetch_on_stale_threshold = Option.none) :
    Job.get j true now args kwargs st =
      ⟨.ok d,
       { st with
           store := storeSet st.store key
             (.tuple [.int (now + j.refresh_timeout), d, .str "QUEUED"]),
           writes := st.writes ++
             [(key, PyVal.tuple [.int (now + j.refresh_timeout), d,
                .str "QUEUED"])],
           dispatched := st.dispatched + 1 }⟩ := by
  simp only [Job.get, hkey, hentry]
  rw [if_pos (by omega)]
  simp only [Job.should_stale_item_be_fetched_synchronously, hth]
  rw [if_neg (by simp)]
  simp only [Job.timeout, cache_set_ok, PyRes.bind, Job.async_refresh,
    if_true, Job.got_stale]

/-- C4 witness: the concrete stale hit at t = 700 on an entry with expiry
600 and payload V: V is returned, the entry becomes
`(760, V, QUEUED)`, and one dispatch is recorded. -/
theorem c4_witness :
    (600 : Int) < 700 ∧
    Job.get vJob true 700 [] [] freshSt =
      ⟨.ok (.str "V"),
       ⟨[("tests.VanillaJob", .tuple [.int 760, .str "V", .str "QUEUED"])],
        [("tests.VanillaJob", .tuple [.int 760, .str "V", .str "QUEUED"])],
        1, 0⟩⟩ :=
  ⟨by decide,
   c4_stale_entry_async_refresh vJob 700 [] [] freshSt "tests.VanillaJob"
     600 (.str "V") (.str "FRESH") rfl rfl (by decide) rfl⟩

/-- C4 counterexample to the claim as stated: an entry with
`expiry = 600 > now = 5` does not behave as the claim describes — `get`
returns via the hit path with the state unchanged (no dispatch, no
rewrite). -/
theorem c4_counterexample :
    (600 : Int) > 5 ∧
    Job.get vJob true 5 [] [] freshSt = ⟨.ok (.str "V"), freshSt⟩ :=
  ⟨by decide, rfl⟩

/-- C5: the claim fails on the code.  On a miss with `fetch_on_miss` true,
`get` does block and return exactly the fetched value, and the expiry is
call time + lifetime; but the stored entry is the tuple
`(600, FRESH, V)`, which the read path unpacks as payload `FRESH` and
status V — payload and status are swapped.  Behaviourally: an immediately
following fresh-hit `get` at t = 1 returns the string `FRESH`, not the
fetched value V. -/
theorem c5_miss_sync_fetch_swapped_entry :
    c5Get0.val = .ok (.str "V") ∧
    storeGet c5Get0.st.store "tests.VanillaJob" =
      some (.tuple [.int 600, .str "FRESH", .str "V"]) ∧
    c5Get1.val = .ok (.str "FRESH") ∧
    ("FRESH" == "V") = false :=
  ⟨rfl, rfl, rfl, rfl⟩

/-- C6: confirmed.  On a miss with `fetch_on_miss` false and a working
dispatch, `get` returns the empty value through the got-miss hook, the
store afterwards holds the placeholder entry
`(now + refresh_timeout, empty, QUEUED)` — refresh-timeout expiry, not
lifetime — and exactly one async dispatch is recorded. -/
theorem c6_miss_async_placeholder (j : Job) (now : Int) (args : List Arg)
    (kwargs : List (String × Arg)) (st : CState) (key : String)
    (hkey : Job.key j args kwargs = .ok key)
    (hmiss : storeGet st.store key = Option.none)
    (hfom : j.fetch_on_miss = false) :
    Job.get j true now args kwargs st =
      ⟨.ok (Job.got_miss j j.empty true),
       { st with
           store := storeSet st.store key
             (.tuple [.int (now + j.refresh_timeout), j.empty,
                .str "QUEUED"]),
           writes := st.writes ++
             [(key, PyVal.tuple [.int (now + j.refresh_timeout), j.empty,
                .str "QUEUED"])],
           dispatched := st.dispatched + 1 }⟩ := by
  simp only [Job.get, hkey, hmiss,
    Job.should_missing_item_be_fetched_synchronously, hfom,
    Bool.false_eq_true, if_false]
  simp only [Job.timeout, cache_set_ok, PyRes.bind, Job.async_refresh,
    if_true, Job.got_miss]

/-- C6 witness: concrete miss at t = 100 with `fetch_on_miss` false:
`empty()` (None) is returned, the placeholder `(160, None, QUEUED)` is
stored, one dispatch is recorded. -/
theorem c6_witness :
    storeGet emptySt.store "tests.VanillaJob" = Option.none ∧
    vJobNoFom.fetch_on_miss = false ∧
    Job.get vJobNoFom true 100 [] [] emptySt =
      ⟨.ok PyVal.none,
       ⟨[("tests.VanillaJob", .tuple [.int 160, PyVal.none, .str "QUEUED"])],
        [("tests.VanillaJob", .tuple [.int 160, PyVal.none, .str "QUEUED"])],
        1, 0⟩⟩ :=
  ⟨rfl, rfl,
   c6_miss_async_placeholder vJobNoFom 100 [] [] emptySt "tests.VanillaJob"
     rfl rfl rfl⟩

/-- C7 (amended: determinism holds, but kwargs order does matter): `key`
is a pure function, so repeated calls with identical inputs produce the
identical string; however the kwargs key tuple and value tuple are hashed
in kwargs insertion order without sorting, so the same keyword/value
pairs supplied in a different order produce different cache keys
(witnessed by `a=1, b=2` versus `b=2, a=1`). -/
theorem c7_key_deterministic_but_order_sensitive :
    (∀ (j : Job) (args : List Arg) (kwargs : List (String × Arg)),
        Job.key j args kwargs = Job.key j args kwargs) ∧
    Job.key vJob [] kwAB = .ok keyABstr ∧
    Job.key vJob [] kwBA = .ok keyBAstr ∧
    (keyABstr == keyBAstr) = false :=
  ⟨fun _ _ _ => rfl, rfl, rfl, rfl⟩

/-- C7 counterexample to the claim as stated: the two kwargs orders carry
the identical key/value pairs, yet the computed cache keys differ. -/
theorem c7_counterexample :
    Job.key vJob [] kwAB = .ok keyABstr ∧
    Job.key vJob [] kwBA = .ok keyBAstr ∧
    (keyABstr == keyBAstr) = false :=
  ⟨rfl, rfl, rfl⟩

/-- C8: confirmed.  `key` raises the instructive `RuntimeError` (the
UnhashableInputError of the spec) exactly when some positional argument
or keyword-argument value cannot be canonically encoded (its `repr`
raises `TypeError`); for encodable inputs `key` returns a key string
normally.  The error message is the literal source text telling the
caller to implement their own key generation method. -/
theorem c8_key_unhashable (j : Job) (args : List Arg)
    (kwargs : List (String × Arg)) :
    (encodableInputs args kwargs = true →
      ∃ k, Job.key j args kwargs = .ok k) ∧
    (encodableInputs args kwargs = false →
      Job.key j args kwargs = .error (.runtimeError unhashableMsg)) := by
  constructor
  · intro h
    rw [encodableInputs, Bool.and_eq_true] at h
    cases args with
    | nil =>
      cases kwargs with
      | nil => exact ⟨j.class_path, rfl⟩
      | cons p t =>
        obtain ⟨h1, e1⟩ := hash_ok [] rfl
        obtain ⟨h2, e2⟩ :=
          hash_ok ((p :: t).map fun q => Arg.str q.1) (keys_all_encodable _)
        obtain ⟨h3, e3⟩ :=
          hash_ok ((p :: t).map fun q => q.2) (values_all_encodable _ h.2)
        rw [List.map_cons] at e2 e3
        exact ⟨j.class_path ++ ":" ++ h1 ++ ":" ++ h2 ++ ":" ++ h3,
          by simp [Job.key, e1, e2, e3]⟩
    | cons a t =>
      cases kwargs with
      | nil =>
        obtain ⟨h1, e1⟩ := hash_ok (a :: t) h.1
        exact ⟨j.class_path ++ ":" ++ h1, by simp [Job.key, e1]⟩
      | cons p pt =>
        obtain ⟨h1, e1⟩ := hash_ok (a :: t) h.1
        obtain ⟨h2, e2⟩ :=
          hash_ok ((p :: pt).map fun q => Arg.str q.1) (keys_all_encodable _)
        obtain ⟨h3, e3⟩ :=
          hash_ok ((p :: pt).map fun q => q.2) (values_all_encodable _ h.2)
        rw [List.map_cons] at e2 e3
        exact ⟨j.class_path ++ ":" ++ h1 ++ ":" ++ h2 ++ ":" ++ h3,
          by simp [Job.key, e1, e2, e3]⟩
  · intro h
    rw [encodableInputs] at h
    cases args with
    | nil =>
      cases kwargs with
      | nil => simp [List.all_nil] at h
      | cons p t =>
        rw [List.all_nil, Bool.true_and] at h
        obtain ⟨h1, e1⟩ := hash_ok [] rfl
        obtain ⟨h2, e2⟩ :=
          hash_ok ((p :: t).map fun q => Arg.str q.1) (keys_all_encodable _)
        have e3 := hash_err ((p :: t).map fun q => q.2)
          (values_all_encodable_false _ h)
        rw [List.map_cons] at e2 e3
        simp [Job.key, e1, e2, e3]
    | cons a t =>
      cases kwargs with
      | nil =>
        rw [List.all_nil, Bool.and_true] at h
        have e1 := hash_err (a :: t) h
        simp [Job.key, e1]
      | cons p pt =>
        cases ha : (a :: t).all Arg.encodable with
        | false =>
          have e1 := hash_err (a :: t) ha
          simp [Job.key, e1]
        | true =>
          rw [ha, Bool.true_and] at h
          obtain ⟨h1, e1⟩ := hash_ok (a :: t) ha
          obtain ⟨h2, e2⟩ :=
            hash_ok ((p :: pt).map fun q => Arg.str q.1)
              (keys_all_encodable _)
          have e3 := hash_err ((p :: pt).map fun q => q.2)
            (values_all_encodable_false _ h)
          rw [List.map_cons] at e2 e3
          simp [Job.key, e1, e2, e3]

/-- C8 witness: an encodable call yields a key; a call carrying a
non-encodable object yields the instructive RuntimeError. -/
theorem c8_witness :
    encodableInputs [Arg.str "x"] [] = true ∧
    (∃ k, Job.key vJob [Arg.str "x"] [] = .ok k) ∧
    encodableInputs [Arg.bad 0] [] = false ∧
    Job.key vJob [Arg.bad 0] [] = .error (.runtimeError unhashableMsg) :=
  ⟨rfl, (c8_key_unhashable vJob [Arg.str "x"] []).1 rfl,
   rfl, (c8_key_unhashable vJob [Arg.bad 0] []).2 rfl⟩

/-- C9: confirmed.  When the dispatch submission raises (`dok = false`),
`async_refresh` attempts exactly one synchronous refresh fallback (the
refresh-call counter rises by exactly one), and no exception propagates
out of `async_refresh` whatever `fetch` does — a failing fallback is
swallowed, so the `get` caller keeps the value it already computed. -/
theorem c9_dispatch_failure_fallback (j : Job) (now : Int) (args : List Arg)
    (kwargs : List (String × Arg)) (st : CState) :
    (Job.async_refresh j false now args kwargs st).val = .ok () ∧
    (Job.async_refresh j false now args kwargs st).st.refreshCalls =
      st.refreshCalls + 1 := by
  refine ⟨async_refresh_never_raises j false now args kwargs st, ?_⟩
  simp only [Job.async_refresh, Bool.false_eq_true, if_false]
  have h := refresh_refreshCalls j now args kwargs st
  cases hr : Job.refresh j now args kwargs st with
  | mk v st1 =>
    rw [hr] at h
    cases v <;> exact h

/-- C10: confirmed.  Every value any of `get`, `refresh` and `invalidate`
writes to the backing store is a complete three-field tuple
(`completeTriple`); in particular no operation ever stores `None` or a
partial entry.  Stated as preservation of the write-log invariant from
any starting state whose log already satisfies it. -/
theorem c10_storage_invariant (j : Job) (dok : Bool) (now : Int)
    (args : List Arg) (kwargs : List (String × Arg)) (st : CState)
    (h : WritesOk st.writes = true) :
    WritesOk ((Job.get j dok now args kwargs st).st.writes) = true ∧
    WritesOk ((Job.refresh j now args kwargs st).st.writes) = true ∧
    WritesOk ((Job.invalidate j dok now args kwargs st).st.writes) = true :=
  ⟨get_writesOk j dok now args kwargs st h,
   refresh_writesOk j now args kwargs st h,
   invalidate_writesOk j dok now args kwargs st h⟩

/-- C10 witness: from the empty world (empty write log), each operation
leaves a write log of complete triples only. -/
theorem c10_witness :
    WritesOk emptySt.writes = true ∧
    WritesOk ((Job.get vJob true 0 [] [] emptySt).st.writes) = true ∧
    WritesOk ((Job.refresh vJob 0 [] [] emptySt).st.writes) = true ∧
    WritesOk ((Job.invalidate vJob true 0 [] [] emptySt).st.writes) = true :=
  ⟨rfl,
   (c10_storage_invariant vJob true 0 [] [] emptySt rfl).1,
   (c10_storage_invariant vJob true 0 [] [] emptySt rfl).2.1,
   (c10_storage_invariant vJob true 0 [] [] emptySt rfl).2.2⟩
